import Mathlib

/-
Verification development for the station control client of `wifi-ctrl`
(file `src/sta/client.rs`).  The client half of the crate is embedded
shallowly: Rust enums become Lean inductives, the tokio mpsc request
queue and the oneshot completion channels are modelled by an explicit
`World` record (queue open or closed, a fresh-handle counter, and a
reply oracle per payload type giving, for each handle, either the value
the actor eventually delivers or `none` when the handle was abandoned).
The station actor itself is not part of the visible slice; where a claim
depends on it, it is modelled from the specification and marked so.
-/

namespace WifiCtrl

/-- One discovered access point; its fields are opaque to this slice
(`ScanResult` is defined elsewhere in the crate and only transported here). -/
structure ScanResult where
  name : String
  signal : Int
deriving DecidableEq, Repr

/-- Reference-counted pointer, modelling `std::sync::Arc`: a handle onto an
immutable heap cell.  Cloning copies only the pointer, never the contents. -/
structure Arc (α : Type) where
  ptr : Nat
deriving DecidableEq, Repr

/-- Heap of immutable `Arc` cells; cell `i` of `cells` is the contents of the
pointer `⟨i⟩`.  Allocation appends, nothing ever rewrites an existing cell. -/
structure ArcHeap (α : Type) where
  cells : List α
deriving DecidableEq, Repr

/-- Allocate a new cell (`Arc::new`): returns a pointer to the fresh cell. -/
def ArcHeap.alloc (h : ArcHeap α) (v : α) : Arc α × ArcHeap α :=
  (⟨h.cells.length⟩, ⟨h.cells ++ [v]⟩)

/-- Dereference a pointer in a heap. -/
def Arc.get (a : Arc α) (h : ArcHeap α) : Option α :=
  h.cells[a.ptr]?

/-- Clone a pointer (`Arc::clone`): shares the cell, touches no heap. -/
def Arc.clone (a : Arc α) : Arc α :=
  a

/-- Translation of `pub type ScanResults = Arc<Vec<ScanResult>>`
(src/sta/client.rs line 4). -/
abbrev ScanResults : Type := Arc (List ScanResult)

/-- Translation of `enum SelectResult` (src/sta/client.rs lines 8-14). -/
inductive SelectResult where
  | Success
  | WrongPsk
  | NotFound
  | PendingSelect
  | InvalidNetworkId
deriving DecidableEq, Repr, Fintype

/-- Translation of the `fmt::Display` impl for `SelectResult`
(src/sta/client.rs lines 17-28): the string written to the formatter. -/
def SelectResult.display : SelectResult → String
  | SelectResult.Success => "success"
  | SelectResult.WrongPsk => "wrong_psk"
  | SelectResult.NotFound => "network_not_found"
  | SelectResult.PendingSelect => "select_already_pending"
  | SelectResult.InvalidNetworkId => "invalid_network_id"

/-- Current station status; fields opaque to this slice. -/
structure Status where
  ssid : String
  state : String
deriving DecidableEq, Repr

/-- One configured network entry; fields opaque to this slice beyond what the
`SetNetwork` edits touch. -/
structure NetworkResult where
  ssid : String
  psk : String
deriving DecidableEq, Repr

/-- Modelled from the spec: the crate error type `error::Error` lives in
src/error.rs, which is not part of the visible slice.  The variant
`wifiStationRequestChannelClosed` is named in src/sta/client.rs line 64;
per spec section 7 every control-channel failure is surfaced as that one
kind, and `other` stands for the remaining (domain-side) variants, such as
the error a fallible `Status` reply may carry. -/
inductive Error where
  | wifiStationRequestChannelClosed
  | other : String → Error
deriving DecidableEq, Repr

/-- Error of `tokio::sync::oneshot::Receiver::await`: the sender was dropped
without sending. -/
inductive RecvError where
  | closed
deriving DecidableEq, Repr

/-- Modelled from the spec: the `From<oneshot::error::RecvError>` conversion
applied by the `?` in `Ok(request.await?)` lives in src/error.rs, not in the
visible slice; spec section 7 states that reply-channel abandonment is
surfaced as the same single control-channel failure kind as a closed queue. -/
def Error.fromRecvError : RecvError → Error
  | RecvError.closed => Error.wifiStationRequestChannelClosed

deriving instance DecidableEq for Except

/-- One end of a `tokio::sync::oneshot` channel, identified by the id under
which it was allocated; `α` is the payload type it can carry. -/
structure Oneshot (α : Type) where
  id : Nat
deriving DecidableEq, Repr

/-- Translation of `enum SetNetwork` (src/sta/client.rs lines 44-47). -/
inductive SetNetwork where
  | Ssid : String → SetNetwork
  | Psk : String → SetNetwork
deriving DecidableEq, Repr

/-- Translation of `enum Request` (src/sta/client.rs lines 31-41); each
oneshot sender is embedded as a typed `Oneshot` handle. -/
inductive Request where
  | Status : Oneshot (Except Error Status) → Request
  | Networks : Oneshot (List NetworkResult) → Request
  | Scan : Oneshot ScanResults → Request
  | AddNetwork : Oneshot Nat → Request
  | SetNetwork : Nat → SetNetwork → Request
  | SaveConfig : Request
  | RemoveNetwork : Nat → Request
  | SelectNetwork : Nat → Oneshot SelectResult → Request
  | Shutdown : Request
deriving DecidableEq, Repr

/-- Environment a client call runs in: whether the actor side of the request
queue is still open, the next fresh oneshot id, and one reply oracle per
payload type (value eventually sent on that handle, or `none` when the actor
dropped the handle without replying). -/
structure World where
  queueOpen : Bool
  nextHandle : Nat
  statusReply : Nat → Option (Except Error Status)
  networksReply : Nat → Option (List NetworkResult)
  scanReply : Nat → Option ScanResults
  addNetworkReply : Nat → Option Nat
  selectReply : Nat → Option SelectResult

/-- Allocate a fresh oneshot channel (`oneshot::channel()`): a handle bearing
the current fresh id, and the world with the counter advanced so the id is
never handed out again. -/
def oneshot_channel (α : Type) (w : World) : Oneshot α × World :=
  (⟨w.nextHandle⟩, { w with nextHandle := w.nextHandle + 1 })

/-- Await a oneshot receiver against its reply oracle: the delivered value,
or `RecvError` when the sender was abandoned. -/
def Oneshot.awaitReply (h : Oneshot α) (oracle : Nat → Option α) :
    Except RecvError α :=
  match oracle h.id with
  | some v => Except.ok v
  | none => Except.error RecvError.closed

namespace RequestClient

/-- Translation of `RequestClient::send_request` (src/sta/client.rs lines
60-66): enqueue the request, mapping a send failure (queue closed) to
`WifiStationRequestChannelClosed`.  Also returns the list of requests that
actually entered the queue. -/
def send_request (w : World) (request : Request) :
    Except Error Unit × List Request :=
  if w.queueOpen then (Except.ok (), [request])
  else (Except.error Error.wifiStationRequestChannelClosed, [])

/-- Translation of `RequestClient::get_scan` (src/sta/client.rs lines 68-72). -/
def get_scan (w : World) : Except Error ScanResults × List Request × World :=
  let alloc := oneshot_channel ScanResults w
  let response := alloc.1
  let w1 := alloc.2
  match send_request w1 (Request.Scan response) with
  | (Except.ok _, sent) =>
    match response.awaitReply w1.scanReply with
    | Except.ok v => (Except.ok v, sent, w1)
    | Except.error e => (Except.error (Error.fromRecvError e), sent, w1)
  | (Except.error e, sent) => (Except.error e, sent, w1)

/-- Translation of `RequestClient::get_networks` (src/sta/client.rs lines
74-78). -/
def get_networks (w : World) :
    Except Error (List NetworkResult) × List Request × World :=
  let alloc := oneshot_channel (List NetworkResult) w
  let response := alloc.1
  let w1 := alloc.2
  match send_request w1 (Request.Networks response) with
  | (Except.ok _, sent) =>
    match response.awaitReply w1.networksReply with
    | Except.ok v => (Except.ok v, sent, w1)
    | Except.error e => (Except.error (Error.fromRecvError e), sent, w1)
  | (Except.error e, sent) => (Except.error e, sent, w1)

/-- Translation of `RequestClient::get_status` (src/sta/client.rs lines
80-84): the success payload is itself a fallible `Status`. -/
def get_status (w : World) :
    Except Error (Except Error Status) × List Request × World :=
  let alloc := oneshot_channel (Except Error Status) w
  let response := alloc.1
  let w1 := alloc.2
  match send_request w1 (Request.Status response) with
  | (Except.ok _, sent) =>
    match response.awaitReply w1.statusReply with
    | Except.ok v => (Except.ok v, sent, w1)
    | Except.error e => (Except.error (Error.fromRecvError e), sent, w1)
  | (Except.error e, sent) => (Except.error e, sent, w1)

/-- Translation of `RequestClient::add_network` (src/sta/client.rs lines
86-90). -/
def add_network (w : World) : Except Error Nat × List Request × World :=
  let alloc := oneshot_channel Nat w
  let response := alloc.1
  let w1 := alloc.2
  match send_request w1 (Request.AddNetwork response) with
  | (Except.ok _, sent) =>
    match response.awaitReply w1.addNetworkReply with
    | Except.ok v => (Except.ok v, sent, w1)
    | Except.error e => (Except.error (Error.fromRecvError e), sent, w1)
  | (Except.error e, sent) => (Except.error e, sent, w1)

/-- Translation of `RequestClient::set_network_psk` (src/sta/client.rs lines
92-96): fire-and-forget, no oneshot channel is allocated. -/
def set_network_psk (w : World) (network_id : Nat) (psk : String) :
    Except Error Unit × List Request × World :=
  match send_request w (Request.SetNetwork network_id (SetNetwork.Psk psk)) with
  | (Except.ok _, sent) => (Except.ok (), sent, w)
  | (Except.error e, sent) => (Except.error e, sent, w)

/-- Translation of `RequestClient::set_network_ssid` (src/sta/client.rs lines
98-102). -/
def set_network_ssid (w : World) (network_id : Nat) (ssid : String) :
    Except Error Unit × List Request × World :=
  match send_request w (Request.SetNetwork network_id (SetNetwork.Ssid ssid)) with
  | (Except.ok _, sent) => (Except.ok (), sent, w)
  | (Except.error e, sent) => (Except.error e, sent, w)

/-- Translation of `RequestClient::save_config` (src/sta/client.rs lines
104-107). -/
def save_config (w : World) : Except Error Unit × List Request × World :=
  match send_request w Request.SaveConfig with
  | (Except.ok _, sent) => (Except.ok (), sent, w)
  | (Except.error e, sent) => (Except.error e, sent, w)

/-- Translation of `RequestClient::remove_network` (src/sta/client.rs lines
109-113). -/
def remove_network (w : World) (network_id : Nat) :
    Except Error Unit × List Request × World :=
  match send_request w (Request.RemoveNetwork network_id) with
  | (Except.ok _, sent) => (Except.ok (), sent, w)
  | (Except.error e, sent) => (Except.error e, sent, w)

/-- Translation of `RequestClient::select_network` (src/sta/client.rs lines
115-120). -/
def select_network (w : World) (network_id : Nat) :
    Except Error SelectResult × List Request × World :=
  let alloc := oneshot_channel SelectResult w
  let response := alloc.1
  let w1 := alloc.2
  match send_request w1 (Request.SelectNetwork network_id response) with
  | (Except.ok _, sent) =>
    match response.awaitReply w1.selectReply with
    | Except.ok v => (Except.ok v, sent, w1)
    | Except.error e => (Except.error (Error.fromRecvError e), sent, w1)
  | (Except.error e, sent) => (Except.error e, sent, w1)

/-- Translation of `RequestClient::shutdown` (src/sta/client.rs lines
122-125). -/
def shutdown (w : World) : Except Error Unit × List Request × World :=
  match send_request w Request.Shutdown with
  | (Except.ok _, sent) => (Except.ok (), sent, w)
  | (Except.error e, sent) => (Except.error e, sent, w)

end RequestClient

/-- The ten public operations of `RequestClient`, used to quantify uniformly
over calls. -/
inductive Op where
  | getScan
  | getNetworks
  | getStatus
  | addNetwork
  | setNetworkPsk : Nat → String → Op
  | setNetworkSsid : Nat → String → Op
  | saveConfig
  | removeNetwork : Nat → Op
  | selectNetwork : Nat → Op
  | shutdown
deriving DecidableEq, Repr

/-- Whether an operation's request variant carries a completion handle. -/
def Op.hasReply : Op → Bool
  | Op.getScan => true
  | Op.getNetworks => true
  | Op.getStatus => true
  | Op.addNetwork => true
  | Op.setNetworkPsk _ _ => false
  | Op.setNetworkSsid _ _ => false
  | Op.saveConfig => false
  | Op.removeNetwork _ => false
  | Op.selectNetwork _ => true
  | Op.shutdown => false

/-- Success payload of an operation, injected into one sum so all ten
operations can be run by one function. -/
inductive OpResult where
  | scan : ScanResults → OpResult
  | networks : List NetworkResult → OpResult
  | status : Except Error Status → OpResult
  | networkId : Nat → OpResult
  | select : SelectResult → OpResult
  | unit : OpResult
deriving DecidableEq, Repr

/-- Run any public operation in a world, delegating to the per-operation
translations above. -/
def runOp (o : Op) (w : World) : Except Error OpResult × List Request × World :=
  match o with
  | Op.getScan =>
    let r := RequestClient.get_scan w
    (r.1.map OpResult.scan, r.2)
  | Op.getNetworks =>
    let r := RequestClient.get_networks w
    (r.1.map OpResult.networks, r.2)
  | Op.getStatus =>
    let r := RequestClient.get_status w
    (r.1.map OpResult.status, r.2)
  | Op.addNetwork =>
    let r := RequestClient.add_network w
    (r.1.map OpResult.networkId, r.2)
  | Op.setNetworkPsk i psk =>
    let r := RequestClient.set_network_psk w i psk
    (r.1.map (fun _ => OpResult.unit), r.2)
  | Op.setNetworkSsid i ssid =>
    let r := RequestClient.set_network_ssid w i ssid
    (r.1.map (fun _ => OpResult.unit), r.2)
  | Op.saveConfig =>
    let r := RequestClient.save_config w
    (r.1.map (fun _ => OpResult.unit), r.2)
  | Op.removeNetwork i =>
    let r := RequestClient.remove_network w i
    (r.1.map (fun _ => OpResult.unit), r.2)
  | Op.selectNetwork i =>
    let r := RequestClient.select_network w i
    (r.1.map OpResult.select, r.2)
  | Op.shutdown =>
    let r := RequestClient.shutdown w
    (r.1.map (fun _ => OpResult.unit), r.2)

/-
Station actor model.  The actor loop lives in src/sta/mod.rs, which is not
part of the visible slice; everything below is modelled from the spec
(sections 4.2 and 5): one serial loop owning the station state, FIFO over
arriving requests, selection resolved asynchronously against the link layer,
loop exit on Shutdown.
-/

/-- Outcome the external link layer reports for an initiated selection
(spec section 6). -/
inductive LinkOutcome where
  | joined
  | wrongPsk
  | notFound
deriving DecidableEq, Repr

/-- Classification of a finished selection attempt (spec section 4.2). -/
def LinkOutcome.toSelectResult : LinkOutcome → SelectResult
  | LinkOutcome.joined => SelectResult.Success
  | LinkOutcome.wrongPsk => SelectResult.WrongPsk
  | LinkOutcome.notFound => SelectResult.NotFound

/-- Modelled from the spec: the actor's private state (section 4.2) — whether
the loop is still running, the configured network list (ids are indices), the
outstanding selections as (network id, reply-handle id) pairs, and the data
its read requests reply with.  `pending` is a list rather than an option so
that "at most one selection resolving at a time" is a proved invariant, not
a consequence of the type. -/
structure ActorState where
  alive : Bool
  networks : List NetworkResult
  pending : List (Nat × Nat)
  status : Except Error Status
  lastScan : ScanResults
deriving DecidableEq, Repr

/-- One thing the actor's loop reacts to: a dequeued request, or the link
layer resolving the outstanding selection. -/
inductive ActorEvent where
  | req : Request → ActorEvent
  | link : LinkOutcome → ActorEvent
deriving DecidableEq, Repr

/-- Value the actor sends back on a completion handle. -/
inductive ReplyValue where
  | status : Except Error Status → ReplyValue
  | networks : List NetworkResult → ReplyValue
  | scan : ScanResults → ReplyValue
  | networkId : Nat → ReplyValue
  | select : SelectResult → ReplyValue
deriving DecidableEq, Repr

/-- Apply a `SetNetwork` edit in place to entry `id` of the network list
(spec section 3: applied in place, persisted only on SaveConfig). -/
def applyEdit (ns : List NetworkResult) (id : Nat) (e : SetNetwork) :
    List NetworkResult :=
  ns.mapIdx fun i n =>
    if i = id then
      match e with
      | SetNetwork.Ssid s => { n with ssid := s }
      | SetNetwork.Psk p => { n with psk := p }
    else n

/-- Modelled from the spec: one step of the actor loop (section 4.2).  A dead
actor ignores everything (its queue is closed).  `SelectNetwork` validates the
id first (absent id yields `InvalidNetworkId`), then refuses with
`PendingSelect` while a selection is outstanding, else starts resolving; a
link outcome resolves the outstanding selection and replies on its handle.
Returns the new state and the replies delivered. -/
def ActorState.step (s : ActorState) (e : ActorEvent) :
    ActorState × List (Nat × ReplyValue) :=
  if s.alive then
    match e with
    | ActorEvent.req (Request.Status h) => (s, [(h.id, ReplyValue.status s.status)])
    | ActorEvent.req (Request.Networks h) => (s, [(h.id, ReplyValue.networks s.networks)])
    | ActorEvent.req (Request.Scan h) => (s, [(h.id, ReplyValue.scan s.lastScan)])
    | ActorEvent.req (Request.AddNetwork h) =>
      ({ s with networks := s.networks ++ [⟨"", ""⟩] },
        [(h.id, ReplyValue.networkId s.networks.length)])
    | ActorEvent.req (Request.SetNetwork id e) =>
      ({ s with networks := applyEdit s.networks id e }, [])
    | ActorEvent.req Request.SaveConfig => (s, [])
    | ActorEvent.req (Request.RemoveNetwork id) =>
      ({ s with networks := s.networks.eraseIdx id }, [])
    | ActorEvent.req (Request.SelectNetwork id h) =>
      if id < s.networks.length then
        if s.pending = [] then ({ s with pending := [(id, h.id)] }, [])
        else (s, [(h.id, ReplyValue.select SelectResult.PendingSelect)])
      else (s, [(h.id, ReplyValue.select SelectResult.InvalidNetworkId)])
    | ActorEvent.req Request.Shutdown => ({ s with alive := false }, [])
    | ActorEvent.link o =>
      match s.pending with
      | [] => (s, [])
      | (_, hid) :: rest =>
        ({ s with pending := rest }, [(hid, ReplyValue.select o.toSelectResult)])
  else (s, [])

/-- Run the actor over a list of events, returning the final state. -/
def ActorState.run (s : ActorState) (es : List ActorEvent) : ActorState :=
  es.foldl (fun st e => (st.step e).1) s

/-- Modelled from the spec: the request queue is open exactly while the
actor's loop is running (sections 4.2 and 7 — once the loop exits, the
queue's receiver is dropped and every send fails). -/
def systemWorld (s : ActorState) (w : World) : World :=
  { w with queueOpen := s.alive }

/-- World with the fresh-handle counter advanced: the state a reply-bearing
call leaves behind, so the same oneshot id is never allocated twice. -/
def World.bump (w : World) : World :=
  { w with nextHandle := w.nextHandle + 1 }

/-- Concrete status value used by the example worlds below. -/
def exStatus : Status :=
  ⟨"home", "COMPLETED"⟩

/-- Concrete scan snapshot pointer used by the example worlds below. -/
def exScan : ScanResults :=
  ⟨0⟩

/-- Example world: queue open, every reply delivered on handle 0. -/
def exWorld : World where
  queueOpen := true
  nextHandle := 0
  statusReply := fun i => if i = 0 then some (Except.ok exStatus) else none
  networksReply := fun i => if i = 0 then some [⟨"home", "pw"⟩] else none
  scanReply := fun i => if i = 0 then some exScan else none
  addNetworkReply := fun i => if i = 0 then some 0 else none
  selectReply := fun i => if i = 0 then some SelectResult.WrongPsk else none

/-- Example world whose status reply is the inner (domain-level) error. -/
def exWorldStatusErr : World :=
  { exWorld with
    statusReply := fun i =>
      if i = 0 then some (Except.error (Error.other "station cannot report")) else none }

/-- Example world whose request queue is closed (actor terminated). -/
def closedWorld : World :=
  { exWorld with queueOpen := false }

/-- Example world where the actor abandons every reply handle. -/
def abandonedWorld : World where
  queueOpen := true
  nextHandle := 0
  statusReply := fun _ => none
  networksReply := fun _ => none
  scanReply := fun _ => none
  addNetworkReply := fun _ => none
  selectReply := fun _ => none

/-- Concrete live actor with one configured network and no selection pending. -/
def exActor : ActorState where
  alive := true
  networks := [⟨"", ""⟩]
  pending := []
  status := Except.ok exStatus
  lastScan := exScan

/-- The example actor after it accepted `SelectNetwork 0`: the selection
against the link layer is still resolving. -/
def exActorResolving : ActorState :=
  (exActor.step (ActorEvent.req (Request.SelectNetwork 0 ⟨0⟩))).1

/-
Shared helper lemmas.
-/

/-- With a closed request queue, every public operation fails with the
control-channel error: the enqueue in `send_request` is the first fallible
step of each operation. -/
theorem runOp_queueClosed (o : Op) (w : World) (h : w.queueOpen = false) :
    (runOp o w).1 = Except.error Error.wifiStationRequestChannelClosed := by
  cases o <;>
    simp [runOp, RequestClient.get_scan, RequestClient.get_networks,
      RequestClient.get_status, RequestClient.add_network,
      RequestClient.set_network_psk, RequestClient.set_network_ssid,
      RequestClient.save_config, RequestClient.remove_network,
      RequestClient.select_network, RequestClient.shutdown,
      RequestClient.send_request, oneshot_channel, Except.map, h]

/-- A dead actor ignores every event and delivers no reply. -/
theorem ActorState.step_dead (s : ActorState) (e : ActorEvent)
    (h : s.alive = false) : s.step e = (s, []) := by
  simp [ActorState.step, h]

/-- A dead actor stays dead and unchanged over any event list. -/
theorem ActorState.run_dead (s : ActorState) (es : List ActorEvent)
    (h : s.alive = false) : s.run es = s := by
  induction es with
  | nil => rfl
  | cons e es ih =>
    show ActorState.run (s.step e).1 es = s
    rw [ActorState.step_dead s e h]
    exact ih

/-- Running an actor over a concatenation runs the two halves in order. -/
theorem ActorState.run_append (s : ActorState) (es1 es2 : List ActorEvent) :
    s.run (es1 ++ es2) = (s.run es1).run es2 := by
  simp [ActorState.run, List.foldl_append]

/-- Processing `Shutdown` leaves the actor's loop exited, whether or not it
was still alive. -/
theorem ActorState.step_shutdown_alive (s : ActorState) :
    ((s.step (ActorEvent.req Request.Shutdown)).1).alive = false := by
  by_cases h : s.alive <;> simp [ActorState.step, h]

/-- One actor step never leaves more than one selection outstanding. -/
theorem ActorState.step_pending_le (s : ActorState) (e : ActorEvent)
    (h : s.pending.length ≤ 1) : ((s.step e).1).pending.length ≤ 1 := by
  by_cases ha : s.alive
  · cases e with
    | req r =>
      cases r with
      | Status h2 => simpa [ActorState.step, ha] using h
      | Networks h2 => simpa [ActorState.step, ha] using h
      | Scan h2 => simpa [ActorState.step, ha] using h
      | AddNetwork h2 => simpa [ActorState.step, ha] using h
      | SetNetwork id e2 => simpa [ActorState.step, ha] using h
      | SaveConfig => simpa [ActorState.step, ha] using h
      | RemoveNetwork id => simpa [ActorState.step, ha] using h
      | SelectNetwork id h2 =>
        by_cases hid : id < s.networks.length
        · by_cases hp : s.pending = []
          · simp [ActorState.step, ha, hid, hp]
          · simpa [ActorState.step, ha, hid, hp] using h
        · simpa [ActorState.step, ha, hid] using h
      | Shutdown => simpa [ActorState.step, ha] using h
    | link o =>
      cases hp : s.pending with
      | nil => simp [ActorState.step, ha, hp]
      | cons p rest =>
        obtain ⟨pid, phid⟩ := p
        have hlen : (⟨pid, phid⟩ :: rest : List (Nat × Nat)).length ≤ 1 := hp ▸ h
        simp only [List.length_cons] at hlen
        simp [ActorState.step, ha, hp]
        omega
  · simpa [ActorState.step, ha] using h

/-- Along any run from a state with at most one outstanding selection, at
most one selection is ever outstanding. -/
theorem ActorState.run_pending_le (s : ActorState) (es : List ActorEvent)
    (h : s.pending.length ≤ 1) : (s.run es).pending.length ≤ 1 := by
  induction es generalizing s with
  | nil => exact h
  | cons e es ih => exact ih (s.step e).1 (ActorState.step_pending_le s e h)

/-
Claim theorems.
-/

/-- C1: each reply-bearing public operation of `RequestClient` (`get_scan`,
`get_networks`, `get_status`, `add_network`, `select_network`) allocates the
fresh oneshot handle `⟨w.nextHandle⟩` (and leaves the world with the counter
advanced, so no later call ever reuses that id), enqueues exactly the
matching `Request` variant carrying that handle, and returns the value
delivered on that handle as its success result. -/
theorem c1_reply_bearing_round_trip (w : World) (hq : w.queueOpen = true) :
    (∀ v, w.scanReply w.nextHandle = some v →
      RequestClient.get_scan w =
        (Except.ok v, [Request.Scan ⟨w.nextHandle⟩], w.bump)) ∧
    (∀ v, w.networksReply w.nextHandle = some v →
      RequestClient.get_networks w =
        (Except.ok v, [Request.Networks ⟨w.nextHandle⟩], w.bump)) ∧
    (∀ v, w.statusReply w.nextHandle = some v →
      RequestClient.get_status w =
        (Except.ok v, [Request.Status ⟨w.nextHandle⟩], w.bump)) ∧
    (∀ v, w.addNetworkReply w.nextHandle = some v →
      RequestClient.add_network w =
        (Except.ok v, [Request.AddNetwork ⟨w.nextHandle⟩], w.bump)) ∧
    (∀ id v, w.selectReply w.nextHandle = some v →
      RequestClient.select_network w id =
        (Except.ok v, [Request.SelectNetwork id ⟨w.nextHandle⟩], w.bump)) := by
  refine ⟨?_, ?_, ?_, ?_, ?_⟩ <;> intros <;>
    simp_all [RequestClient.get_scan, RequestClient.get_networks,
      RequestClient.get_status, RequestClient.add_network,
      RequestClient.select_network, RequestClient.send_request,
      oneshot_channel, Oneshot.awaitReply, World.bump, hq]

/-- C1 witness: in the example world the scan round trip enqueues
`Request.Scan ⟨0⟩` and succeeds with the delivered snapshot. -/
theorem c1_witness :
    RequestClient.get_scan exWorld =
      (Except.ok exScan, [Request.Scan ⟨0⟩], exWorld.bump) :=
  (c1_reply_bearing_round_trip exWorld rfl).1 exScan rfl

/-- C2: `Request` is a closed enumeration of exactly nine variants; `Status`,
`Networks`, `Scan`, `AddNetwork` and `SelectNetwork` each carry exactly one
completion handle whose payload type is, respectively, a fallible `Status`,
`List NetworkResult`, a `ScanResults` snapshot, the new network id, and
`SelectResult`, while `SetNetwork`, `SaveConfig`, `RemoveNetwork` and
`Shutdown` carry no completion handle. -/
theorem c2_request_closed_enumeration (r : Request) :
    (∃ h : Oneshot (Except Error Status), r = Request.Status h) ∨
    (∃ h : Oneshot (List NetworkResult), r = Request.Networks h) ∨
    (∃ h : Oneshot ScanResults, r = Request.Scan h) ∨
    (∃ h : Oneshot Nat, r = Request.AddNetwork h) ∨
    (∃ id : Nat, ∃ e : SetNetwork, r = Request.SetNetwork id e) ∨
    r = Request.SaveConfig ∨
    (∃ id : Nat, r = Request.RemoveNetwork id) ∨
    (∃ id : Nat, ∃ h : Oneshot SelectResult, r = Request.SelectNetwork id h) ∨
    r = Request.Shutdown := by
  cases r with
  | Status h => exact Or.inl ⟨h, rfl⟩
  | Networks h => exact Or.inr (Or.inl ⟨h, rfl⟩)
  | Scan h => exact Or.inr (Or.inr (Or.inl ⟨h, rfl⟩))
  | AddNetwork h => exact Or.inr (Or.inr (Or.inr (Or.inl ⟨h, rfl⟩)))
  | SetNetwork id e =>
    exact Or.inr (Or.inr (Or.inr (Or.inr (Or.inl ⟨id, e, rfl⟩))))
  | SaveConfig =>
    exact Or.inr (Or.inr (Or.inr (Or.inr (Or.inr (Or.inl rfl)))))
  | RemoveNetwork id =>
    exact Or.inr (Or.inr (Or.inr (Or.inr (Or.inr (Or.inr (Or.inl ⟨id, rfl⟩))))))
  | SelectNetwork id h =>
    exact Or.inr (Or.inr (Or.inr (Or.inr (Or.inr (Or.inr (Or.inr
      (Or.inl ⟨id, h, rfl⟩)))))))
  | Shutdown =>
    exact Or.inr (Or.inr (Or.inr (Or.inr (Or.inr (Or.inr (Or.inr
      (Or.inr rfl)))))))

/-- C3: for every public operation, both control-channel failures — enqueue
failure on a closed queue, and abandonment of the reply handle before a
reply — surface as the one failure kind
`Error.wifiStationRequestChannelClosed`, which as an `Except.error` is
distinct from every domain-level result (those are delivered under
`Except.ok`). -/
theorem c3_one_control_channel_failure_kind (o : Op) (w : World) :
    (w.queueOpen = false →
      (runOp o w).1 = Except.error Error.wifiStationRequestChannelClosed) ∧
    (w.queueOpen = true →
      w.statusReply w.nextHandle = none →
      w.networksReply w.nextHandle = none →
      w.scanReply w.nextHandle = none →
      w.addNetworkReply w.nextHandle = none →
      w.selectReply w.nextHandle = none →
      o.hasReply = true →
      (runOp o w).1 = Except.error Error.wifiStationRequestChannelClosed) ∧
    (∀ v : OpResult,
      (Except.error Error.wifiStationRequestChannelClosed :
        Except Error OpResult) ≠ Except.ok v) := by
  refine ⟨runOp_queueClosed o w, ?_, ?_⟩
  · intro hq h1 h2 h3 h4 h5 hr
    cases o <;> simp [Op.hasReply] at hr <;>
      simp [runOp, RequestClient.get_scan, RequestClient.get_networks,
        RequestClient.get_status, RequestClient.add_network,
        RequestClient.select_network, RequestClient.send_request,
        oneshot_channel, Oneshot.awaitReply, Error.fromRecvError, Except.map,
        hq, h1, h2, h3, h4, h5]
  · intro v hv
    exact Except.noConfusion hv

/-- C3 witness: on a closed queue and on an abandoned reply handle, a
`get_scan` call fails with the same control-channel error. -/
theorem c3_witness :
    (runOp Op.getScan closedWorld).1 =
      Except.error Error.wifiStationRequestChannelClosed ∧
    (runOp Op.getScan abandonedWorld).1 =
      Except.error Error.wifiStationRequestChannelClosed :=
  ⟨(c3_one_control_channel_failure_kind Op.getScan closedWorld).1 rfl,
    (c3_one_control_channel_failure_kind Op.getScan abandonedWorld).2.1
      rfl rfl rfl rfl rfl rfl rfl⟩

/-- C4: each fire-and-forget operation (`set_network_psk`,
`set_network_ssid`, `save_config`, `remove_network`, `shutdown`) succeeds as
soon as its request enters the open queue, enqueues exactly the matching
variant, leaves the world unchanged (no completion handle allocated) and
consults no reply oracle; and for every fire-and-forget operation in any
world the only possible outcomes are success and the enqueue
(channel-closed) failure. -/
theorem c4_fire_and_forget (w : World) (hq : w.queueOpen = true) :
    (∀ id psk, RequestClient.set_network_psk w id psk =
      (Except.ok (), [Request.SetNetwork id (SetNetwork.Psk psk)], w)) ∧
    (∀ id ssid, RequestClient.set_network_ssid w id ssid =
      (Except.ok (), [Request.SetNetwork id (SetNetwork.Ssid ssid)], w)) ∧
    (RequestClient.save_config w = (Except.ok (), [Request.SaveConfig], w)) ∧
    (∀ id, RequestClient.remove_network w id =
      (Except.ok (), [Request.RemoveNetwork id], w)) ∧
    (RequestClient.shutdown w = (Except.ok (), [Request.Shutdown], w)) ∧
    (∀ (o : Op), o.hasReply = false → ∀ w2 : World,
      (runOp o w2).1 = Except.ok OpResult.unit ∨
      (runOp o w2).1 = Except.error Error.wifiStationRequestChannelClosed) := by
  refine ⟨?_, ?_, ?_, ?_, ?_, ?_⟩
  · intro id psk
    simp [RequestClient.set_network_psk, RequestClient.send_request, hq]
  · intro id ssid
    simp [RequestClient.set_network_ssid, RequestClient.send_request, hq]
  · simp [RequestClient.save_config, RequestClient.send_request, hq]
  · intro id
    simp [RequestClient.remove_network, RequestClient.send_request, hq]
  · simp [RequestClient.shutdown, RequestClient.send_request, hq]
  · intro o ho w2
    cases hqq : w2.queueOpen with
    | false => exact Or.inr (runOp_queueClosed o w2 hqq)
    | true =>
      left
      cases o <;> simp [Op.hasReply] at ho <;>
        simp [runOp, RequestClient.set_network_psk, RequestClient.set_network_ssid,
          RequestClient.save_config, RequestClient.remove_network,
          RequestClient.shutdown, RequestClient.send_request, Except.map, hqq]

/-- C4 witness: `save_config` on the open example world is accepted at once,
and `shutdown` on the closed world fails only with the enqueue error. -/
theorem c4_witness :
    RequestClient.save_config exWorld =
      (Except.ok (), [Request.SaveConfig], exWorld) ∧
    ((runOp Op.shutdown closedWorld).1 = Except.ok OpResult.unit ∨
      (runOp Op.shutdown closedWorld).1 =
        Except.error Error.wifiStationRequestChannelClosed) :=
  ⟨(c4_fire_and_forget exWorld rfl).2.2.1,
    (c4_fire_and_forget exWorld rfl).2.2.2.2.2 Op.shutdown rfl closedWorld⟩

/-- C5: `SelectResult` is a closed enumeration of exactly the five values
`Success`, `WrongPsk`, `NotFound`, `PendingSelect`, `InvalidNetworkId`, and
every `select_network` round trip that completes delivers its outcome —
negative ones included — inside the `Except.ok` branch of the client's
result, never as a control-channel error. -/
theorem c5_select_result_closed_and_domain (w : World) (hq : w.queueOpen = true) :
    (∀ s : SelectResult,
      s = SelectResult.Success ∨ s = SelectResult.WrongPsk ∨
      s = SelectResult.NotFound ∨ s = SelectResult.PendingSelect ∨
      s = SelectResult.InvalidNetworkId) ∧
    (∀ id s, w.selectReply w.nextHandle = some s →
      (RequestClient.select_network w id).1 = Except.ok s) := by
  constructor
  · intro s
    cases s
    · exact Or.inl rfl
    · exact Or.inr (Or.inl rfl)
    · exact Or.inr (Or.inr (Or.inl rfl))
    · exact Or.inr (Or.inr (Or.inr (Or.inl rfl)))
    · exact Or.inr (Or.inr (Or.inr (Or.inr rfl)))
  · intro id s hs
    simp [RequestClient.select_network, RequestClient.send_request,
      oneshot_channel, Oneshot.awaitReply, hq, hs]

/-- C5 witness: in the example world the `WrongPsk` outcome of
`select_network 0` arrives as a success value of the round trip. -/
theorem c5_witness :
    (RequestClient.select_network exWorld 0).1 =
      Except.ok SelectResult.WrongPsk :=
  (c5_select_result_closed_and_domain exWorld rfl).2 0 SelectResult.WrongPsk rfl

/-- C6: `get_status` is two-tier: it fails at the outer layer with the
control-channel error exactly when the queue is closed or the reply handle
was abandoned, and otherwise succeeds carrying the actor's fallible `Status`
verbatim as the inner layer — so "controller unreachable" and "controller
answered that it cannot report status" stay distinguishable. -/
theorem c6_status_two_tier (w : World) :
    (w.queueOpen = false →
      (RequestClient.get_status w).1 =
        Except.error Error.wifiStationRequestChannelClosed) ∧
    (w.queueOpen = true → w.statusReply w.nextHandle = none →
      (RequestClient.get_status w).1 =
        Except.error Error.wifiStationRequestChannelClosed) ∧
    (∀ inner, w.queueOpen = true → w.statusReply w.nextHandle = some inner →
      (RequestClient.get_status w).1 = Except.ok inner) := by
  refine ⟨?_, ?_, ?_⟩
  · intro h
    simp [RequestClient.get_status, RequestClient.send_request, oneshot_channel, h]
  · intro hq hn
    simp [RequestClient.get_status, RequestClient.send_request, oneshot_channel,
      Oneshot.awaitReply, Error.fromRecvError, hq, hn]
  · intro inner hq hs
    simp [RequestClient.get_status, RequestClient.send_request, oneshot_channel,
      Oneshot.awaitReply, hq, hs]

/-- C6 witness: the three outcomes at concrete worlds — closed queue gives
the control error, a delivered healthy status gives a nested `ok`, and a
delivered inner error is still a success of the outer layer. -/
theorem c6_witness :
    (RequestClient.get_status closedWorld).1 =
      Except.error Error.wifiStationRequestChannelClosed ∧
    (RequestClient.get_status exWorld).1 = Except.ok (Except.ok exStatus) ∧
    (RequestClient.get_status exWorldStatusErr).1 =
      Except.ok (Except.error (Error.other "station cannot report")) :=
  ⟨(c6_status_two_tier closedWorld).1 rfl,
    (c6_status_two_tier exWorld).2.2 (Except.ok exStatus) rfl rfl,
    (c6_status_two_tier exWorldStatusErr).2.2
      (Except.error (Error.other "station cannot report")) rfl rfl⟩

/-- C7: a `ScanResults` snapshot is a reference-counted pointer to an
immutable cell: cloning it for another waiting caller copies the pointer
only (no heap access, contents shared), allocating a later scan's snapshot
returns a distinct pointer and never changes what an old pointer
dereferences to, and `get_scan` hands the snapshot pointer through
untouched. -/
theorem c7_scan_snapshot_shared_immutable (heap : ArcHeap (List ScanResult)) :
    (∀ a : ScanResults, a.clone = a) ∧
    (∀ (v : List ScanResult) (a : ScanResults), a.ptr < heap.cells.length →
      Arc.get a (heap.alloc v).2 = Arc.get a heap) ∧
    (∀ v : List ScanResult,
      Arc.get (heap.alloc v).1 (heap.alloc v).2 = some v) ∧
    (∀ (v : List ScanResult) (a : ScanResults), a.ptr < heap.cells.length →
      (heap.alloc v).1 ≠ a) ∧
    (∀ (w : World) (a : ScanResults), w.queueOpen = true →
      w.scanReply w.nextHandle = some a →
      (RequestClient.get_scan w).1 = Except.ok a) := by
  refine ⟨fun a => rfl, ?_, ?_, ?_, ?_⟩
  · intro v a hlt
    simp [Arc.get, ArcHeap.alloc, List.getElem?_append, hlt]
  · intro v
    simp [Arc.get, ArcHeap.alloc]
  · intro v a hlt heq
    have hptr := congrArg Arc.ptr heq
    simp [ArcHeap.alloc] at hptr
    omega
  · intro w a hq hs
    simp [RequestClient.get_scan, RequestClient.send_request, oneshot_channel,
      Oneshot.awaitReply, hq, hs]

/-- C7 witness: on a one-cell heap, cloning shares, a second scan's
allocation leaves the old snapshot's contents untouched, and `get_scan`
returns the snapshot pointer itself. -/
theorem c7_witness :
    Arc.clone exScan = exScan ∧
    Arc.get exScan ((⟨[[⟨"ap", 1⟩]]⟩ : ArcHeap (List ScanResult)).alloc []).2 =
      Arc.get exScan ⟨[[⟨"ap", 1⟩]]⟩ ∧
    (RequestClient.get_scan exWorld).1 = Except.ok exScan :=
  ⟨(c7_scan_snapshot_shared_immutable ⟨[]⟩).1 exScan,
    (c7_scan_snapshot_shared_immutable ⟨[[⟨"ap", 1⟩]]⟩).2.1 [] exScan
      (by decide),
    (c7_scan_snapshot_shared_immutable ⟨[]⟩).2.2.2.2 exWorld exScan rfl rfl⟩

/-- C8: once the actor has processed `Shutdown` anywhere in its event list,
its loop is exited, the request queue is therefore closed, and every
operation issued afterwards from any client resolves to the control-channel
failure kind and never to a domain result. -/
theorem c8_after_shutdown_requests_fail (s : ActorState)
    (pre post : List ActorEvent) (o : Op) (w : World) :
    ((s.run (pre ++ ActorEvent.req Request.Shutdown :: post)).alive = false) ∧
    ((systemWorld (s.run (pre ++ ActorEvent.req Request.Shutdown :: post))
        w).queueOpen = false) ∧
    ((runOp o (systemWorld
        (s.run (pre ++ ActorEvent.req Request.Shutdown :: post)) w)).1 =
      Except.error Error.wifiStationRequestChannelClosed) ∧
    (∀ v : OpResult,
      (runOp o (systemWorld
          (s.run (pre ++ ActorEvent.req Request.Shutdown :: post)) w)).1 ≠
        Except.ok v) := by
  have halive :
      (s.run (pre ++ ActorEvent.req Request.Shutdown :: post)).alive = false := by
    rw [ActorState.run_append]
    show ((((s.run pre).step (ActorEvent.req Request.Shutdown)).1).run post).alive
      = false
    rw [ActorState.run_dead _ post (ActorState.step_shutdown_alive (s.run pre))]
    exact ActorState.step_shutdown_alive (s.run pre)
  have hclosed :
      (systemWorld (s.run (pre ++ ActorEvent.req Request.Shutdown :: post))
        w).queueOpen = false := by
    simp [systemWorld, halive]
  have hfail := runOp_queueClosed o _ hclosed
  refine ⟨halive, hclosed, hfail, ?_⟩
  intro v hv
  rw [hfail] at hv
  exact Except.noConfusion hv

/-- C8 witness: after the example actor processes `Shutdown`, a `get_scan`
issued against the resulting system fails with the control-channel error. -/
theorem c8_witness :
    (runOp Op.getScan (systemWorld
        (exActor.run [ActorEvent.req Request.Shutdown]) exWorld)).1 =
      Except.error Error.wifiStationRequestChannelClosed :=
  (c8_after_shutdown_requests_fail exActor [] [] Op.getScan exWorld).2.2.1

/-- C9 counterexample: against the example actor whose selection of network
0 is still resolving, a concurrently arriving `SelectNetwork 5` (an id not
in the one-entry network list) is answered with `InvalidNetworkId`, not with
the `PendingSelect` the claim promises for every call that arrives while a
selection is resolving — id validation precedes the pending check. -/
theorem c9_counterexample :
    exActorResolving.pending ≠ [] ∧
    (exActorResolving.step
        (ActorEvent.req (Request.SelectNetwork 5 ⟨1⟩))).2 =
      [(1, ReplyValue.select SelectResult.InvalidNetworkId)] ∧
    ReplyValue.select SelectResult.InvalidNetworkId ≠
      ReplyValue.select SelectResult.PendingSelect := by
  refine ⟨?_, ?_, ?_⟩ <;> decide

/-- C9 (amended): at most one selection is ever resolving at a time along
any actor run started without a pending selection; a `SelectNetwork` that
arrives while one is resolving leaves the actor state untouched (so a
second simultaneous resolution attempt never occurs) and is answered
`PendingSelect` when its id is valid, and `InvalidNetworkId` when its id is
not in the network list. -/
theorem c9_single_resolution_with_validation (s0 : ActorState)
    (h0 : s0.pending = []) (es : List ActorEvent) :
    ((s0.run es).pending.length ≤ 1) ∧
    (∀ s : ActorState, s.alive = true → s.pending ≠ [] →
      ∀ (id : Nat) (hdl : Oneshot SelectResult), id < s.networks.length →
      s.step (ActorEvent.req (Request.SelectNetwork id hdl)) =
        (s, [(hdl.id, ReplyValue.select SelectResult.PendingSelect)])) ∧
    (∀ s : ActorState, s.alive = true →
      ∀ (id : Nat) (hdl : Oneshot SelectResult), ¬ id < s.networks.length →
      s.step (ActorEvent.req (Request.SelectNetwork id hdl)) =
        (s, [(hdl.id, ReplyValue.select SelectResult.InvalidNetworkId)])) := by
  refine ⟨?_, ?_, ?_⟩
  · exact ActorState.run_pending_le s0 es (by simp [h0])
  · intro s ha hp id hdl hid
    simp [ActorState.step, ha, hp, hid]
  · intro s ha id hdl hid
    simp [ActorState.step, ha, hid]

/-- C9 amended-claim witness: two selects of the valid id 0 in a row leave
at most one selection resolving, and the second one, issued from the
resolving state, is answered `PendingSelect` with the state untouched. -/
theorem c9_witness :
    ((exActor.run [ActorEvent.req (Request.SelectNetwork 0 ⟨0⟩),
        ActorEvent.req (Request.SelectNetwork 0 ⟨1⟩)]).pending.length ≤ 1) ∧
    exActorResolving.step (ActorEvent.req (Request.SelectNetwork 0 ⟨2⟩)) =
      (exActorResolving, [(2, ReplyValue.select SelectResult.PendingSelect)]) :=
  ⟨(c9_single_resolution_with_validation exActor rfl
      [ActorEvent.req (Request.SelectNetwork 0 ⟨0⟩),
        ActorEvent.req (Request.SelectNetwork 0 ⟨1⟩)]).1,
    (c9_single_resolution_with_validation exActor rfl []).2.1
      exActorResolving (by decide) (by decide) 0 ⟨2⟩ (by decide)⟩

/-- C10: the `Display` rendering of `SelectResult` (a total Lean function,
hence deterministic) maps the five variants to exactly the five fixed
strings, and distinct variants never render to the same string. -/
theorem c10_display_total_injective :
    (SelectResult.display SelectResult.Success = "success") ∧
    (SelectResult.display SelectResult.WrongPsk = "wrong_psk") ∧
    (SelectResult.display SelectResult.NotFound = "network_not_found") ∧
    (SelectResult.display SelectResult.PendingSelect =
      "select_already_pending") ∧
    (SelectResult.display SelectResult.InvalidNetworkId =
      "invalid_network_id") ∧
    (∀ a b : SelectResult,
      (SelectResult.display a = SelectResult.display b) ↔ a = b) := by
  refine ⟨rfl, rfl, rfl, rfl, rfl, ?_⟩
  decide

end WifiCtrl
